import Mathlib

/-!
Verification development for the crypto-ai-trader trade lifecycle and risk
management engine.  The definitions below are a shallow embedding of the
Python sources:

  * `src/config/constants.py`            — numeric configuration constants
  * `src/trading/safety_gates.py`        — `TradeSafetyGates` (pre-trade gates,
                                           monthly cap, position sizing)
  * `src/trading/risk_manager.py`        — `RiskManager` (risk gates, position
                                           ledger, circuit breaker)
  * `src/monitoring/position_monitor.py` — `PositionMonitor.monitor_positions`
                                           (the per-tick exit state machine)
  * `src/strategies/goldilock_strategy.py` — `GoldilockStrategy` exit policy

Prices, balances and P&L are modelled as rationals (Python floats used as
exact decimals); wall-clock timestamps used by the circuit breaker are
rationals measured in hours; calendar timestamps used by the monthly trade
cap are explicit (year, month, day, hour, minute, second) records.
-/

namespace Springai

/-! ## Constants (src/config/constants.py) -/

/-- constants.py line 26: `MAX_OPEN_POSITIONS = 2`. -/
def MAX_OPEN_POSITIONS : ℕ := 2

/-- constants.py line 65: `MIN_CONFIDENCE_TO_TRADE = 70`. -/
def MIN_CONFIDENCE_TO_TRADE : ℚ := 70

/-- constants.py line 241: `GLOBAL_TRADING_PAUSE = False`. -/
def GLOBAL_TRADING_PAUSE : Bool := false

/-- constants.py line 12: `BALANCE_BUFFER_PERCENT = 0.90`. -/
def BALANCE_BUFFER_PERCENT : ℚ := 90 / 100

/-- constants.py line 117: `MAX_POSITION_EXPOSURE_PERCENT = 6`. -/
def MAX_POSITION_EXPOSURE_PERCENT : ℚ := 6

/-- constants.py line 29: `MIN_POSITION_VALUE_USD = 5.0`. -/
def MIN_POSITION_VALUE_USD : ℚ := 5

/-- constants.py line 107: `DAILY_MAX_LOSS_AUD = 100`. -/
def DAILY_MAX_LOSS_AUD : ℚ := 100

/-- constants.py line 108: `DAILY_MAX_LOSS_PERCENT = 10`. -/
def DAILY_MAX_LOSS_PERCENT : ℚ := 10

/-- constants.py line 109: `MAX_CONSECUTIVE_LOSSES = 3`. -/
def MAX_CONSECUTIVE_LOSSES : ℕ := 3

/-- safety_gates.py line 76: `MIN_24H_VOLUME_USD = 50_000_000`. -/
def MIN_24H_VOLUME_USD : ℚ := 50000000

/-- safety_gates.py line 79: `MIN_RSI = 25`. -/
def MIN_RSI : ℚ := 25

/-- safety_gates.py line 80: `MAX_RSI = 78`. -/
def MAX_RSI : ℚ := 78

/-- risk_manager.py line 573: circuit-breaker cooldown `timedelta(hours=24)`,
modelled in hours. -/
def CIRCUIT_BREAKER_COOLDOWN_HOURS : ℚ := 24

/-! ## Rejection reasons

Each constructor names one rejection message produced by
`TradeSafetyGates.validate_trade` (safety_gates.py lines 108-138) or
`RiskManager.validate_trade` (risk_manager.py lines 361-411). -/

inductive RejectReason where
  | monthlyLimitReached
  | notBuySignal
  | insufficientLiquidity
  | lowConfidence
  | rsiTooLow
  | rsiOverextended
  | maxPositionsReached
  | insufficientBalance
  | tradingPaused
  | circuitBreakerActive
  | maxConcurrentPositions
  | dailyLossLimitAbs
  | dailyLossLimitPct
  | stopLossNotBelowEntry
  | insufficientFunds
  | belowMinPositionValue
  deriving DecidableEq, Repr

/-- Result of a pre-trade validation: `(approved, reason)` tuple in the
Python sources. -/
inductive ValidationResult where
  | approved
  | rejected (reason : RejectReason)
  deriving DecidableEq, Repr

/-! ## Calendar timestamps (for the monthly trade cap) -/

/-- A `datetime` value as used by `check_monthly_trade_limit`
(safety_gates.py lines 49-54): components of a calendar timestamp. -/
structure DateTime where
  year : ℕ
  month : ℕ
  day : ℕ
  hour : ℕ
  minute : ℕ
  second : ℕ
  deriving DecidableEq, Repr

namespace DateTime

/-- Component list used for the lexicographic comparison of timestamps. -/
def toList (t : DateTime) : List ℕ :=
  [t.year, t.month, t.day, t.hour, t.minute, t.second]

/-- Lexicographic strict order on equal-length component lists. -/
def lexLt : List ℕ → List ℕ → Bool
  | [], [] => false
  | [], _ :: _ => true
  | _ :: _, [] => false
  | a :: as, b :: bs => if a < b then true else if a = b then lexLt as bs else false

/-- `a < b` on datetimes (calendar order). -/
def ltB (a b : DateTime) : Bool := lexLt a.toList b.toList

/-- `a ≤ b` on datetimes. -/
def leB (a b : DateTime) : Bool := !(ltB b a)

end DateTime

namespace TradeSafetyGates

/-- safety_gates.py line 50: `month_start = now.replace(day=1, hour=0,
minute=0, second=0, microsecond=0)`. -/
def month_start (now : DateTime) : DateTime :=
  { year := now.year, month := now.month, day := 1, hour := 0, minute := 0, second := 0 }

/-- safety_gates.py lines 51-54: the first instant of the following calendar
month. -/
def next_month_start (now : DateTime) : DateTime :=
  if now.month = 12 then
    { year := now.year + 1, month := 1, day := 1, hour := 0, minute := 0, second := 0 }
  else
    { year := now.year, month := now.month + 1, day := 1, hour := 0, minute := 0, second := 0 }

/-- safety_gates.py lines 56-66: count of `TradeRecordModel` rows for
`symbol` with `month_start ≤ entry_time < next_month_start`.  The durable
trade-record table is modelled as a list of `(symbol, entry_time)` pairs. -/
def trades_this_month (records : List (String × DateTime)) (symbol : String)
    (now : DateTime) : ℕ :=
  (records.filter (fun r =>
    decide (r.1 = symbol) && DateTime.leB (month_start now) r.2 &&
      DateTime.ltB r.2 (next_month_start now))).length

/-- safety_gates.py lines 31-73, `TradeSafetyGates.check_monthly_trade_limit`:
`strategyCap = none` models a symbol with no strategy (no monthly limit,
line 43-45); otherwise `strategyCap = some cap` is the strategy's
`max_trades_per_month` and the trade is allowed iff the count of this
month's recorded trades is below `cap` (line 70). -/
def check_monthly_trade_limit (strategyCap : Option ℕ)
    (records : List (String × DateTime)) (symbol : String) (now : DateTime) : Bool :=
  match strategyCap with
  | none => true
  | some cap => !(decide (trades_this_month records symbol now ≥ cap))

/-- Input of `TradeSafetyGates.validate_trade` (safety_gates.py lines 82-91):
the candidate symbol together with the collaborator data the gates read. -/
structure TradeCandidate where
  symbol : String
  /-- `max_trades_per_month` of the symbol's strategy, `none` if the symbol
  has no strategy (safety_gates.py lines 41-45). -/
  strategyCap : Option ℕ
  /-- Durable trade-record store rows `(symbol, entry_time)`. -/
  tradeRecords : List (String × DateTime)
  /-- `datetime.utcnow()` at validation time (safety_gates.py line 49). -/
  utcNow : DateTime
  /-- `ai_decision.get('action') == 'BUY'` (safety_gates.py line 114). -/
  actionIsBuy : Bool
  volume24hUsd : ℚ
  confidence : ℚ
  rsi : ℚ
  activePositions : ℕ
  accountBalance : ℚ

/-- safety_gates.py lines 82-142, `TradeSafetyGates.validate_trade`: the
seven pre-trade gates, evaluated in source order with short-circuiting —
monthly cap, BUY action, liquidity, confidence, RSI band (low then high),
open-position count, minimum account balance. -/
def validate_trade (c : TradeCandidate) : ValidationResult :=
  if check_monthly_trade_limit c.strategyCap c.tradeRecords c.symbol c.utcNow = false then
    .rejected .monthlyLimitReached
  else if c.actionIsBuy = false then .rejected .notBuySignal
  else if c.volume24hUsd < MIN_24H_VOLUME_USD then .rejected .insufficientLiquidity
  else if c.confidence < MIN_CONFIDENCE_TO_TRADE then .rejected .lowConfidence
  else if c.rsi < MIN_RSI then .rejected .rsiTooLow
  else if c.rsi > MAX_RSI then .rejected .rsiOverextended
  else if c.activePositions ≥ MAX_OPEN_POSITIONS then .rejected .maxPositionsReached
  else if c.accountBalance < 10 then .rejected .insufficientBalance
  else .approved

/-- safety_gates.py lines 165-169: the live portfolio allocation table that
overrides per-strategy sizing for tracked symbols. -/
def portfolio_allocations : List (String × ℚ) :=
  [("DOGEUSDT", 40 / 100), ("SHIBUSDT", 30 / 100), ("SOLUSDT", 30 / 100)]

/-- safety_gates.py lines 144-202, `TradeSafetyGates.calculate_position_size`:
returns `(quantity, position_value_usd)`.  `strategyPct` models
`strategy.get_position_size_pct()` for a symbol with a strategy, `none`
when no strategy exists (then the 6% default of line 180 applies).  The
10% balance buffer is applied (line 184), the notional is clamped to 50%
of the usable balance when it exceeds it (lines 190-192), and a
non-positive price yields quantity 0 (line 195). -/
def calculate_position_size (symbol : String) (strategyPct : Option ℚ)
    (account_balance current_price : ℚ) : ℚ × ℚ :=
  let position_size_pct :=
    match portfolio_allocations.find? (fun e => decide (e.1 = symbol)) with
    | some e => e.2
    | none =>
      match strategyPct with
      | some p => p
      | none => MAX_POSITION_EXPOSURE_PERCENT / 100
  let usable_balance := account_balance * BALANCE_BUFFER_PERCENT
  let position_value := usable_balance * position_size_pct
  let position_value :=
    if position_value > usable_balance then usable_balance * (1 / 2) else position_value
  let quantity := if current_price > 0 then position_value / current_price else 0
  (quantity, position_value)

end TradeSafetyGates

namespace RiskManager

/-- risk_manager.py lines 31-59, class `Position`: the fields the risk gates
and the ledger mutate.  `entry_time` is kept outside (the monitor passes
hold days explicitly); dashboard-only fields are omitted. -/
structure Position where
  symbol : String
  entry_price : ℚ
  quantity : ℚ
  stop_loss : ℚ
  /-- line 56: `self.highest_price = entry_price` at creation. -/
  highest_price : ℚ
  /-- line 59: `self.tp1_hit = False` at creation. -/
  tp1_hit : Bool
  deriving DecidableEq, Repr

/-- A settled (fully closed) position as recorded by `Position.close`
(risk_manager.py lines 77-84) and appended to `closed_positions`. -/
structure ClosedPosition where
  symbol : String
  entry_price : ℚ
  quantity : ℚ
  exit_price : ℚ
  pnl : ℚ
  deriving DecidableEq, Repr

/-- Dict lookup `symbol in self.positions` / `self.positions[symbol]`. -/
def dictGet (k : String) (m : List (String × Position)) : Option Position :=
  (m.find? (fun e => decide (e.1 = k))).map Prod.snd

/-- Dict assignment `self.positions[symbol] = position` (replaces the entry
for that key if present, else appends). -/
def dictInsert (k : String) (v : Position) (m : List (String × Position)) :
    List (String × Position) :=
  if m.any (fun e => decide (e.1 = k)) then
    m.map (fun e => if e.1 = k then (k, v) else e)
  else m ++ [(k, v)]

/-- Dict deletion `del self.positions[symbol]`. -/
def dictErase (k : String) (m : List (String × Position)) : List (String × Position) :=
  m.filter (fun e => !(decide (e.1 = k)))

/-- The mutable risk state of `RiskManager` (risk_manager.py lines 90-134):
balance, positions map, daily loss, consecutive-loss counter and the
circuit breaker.  `circuit_breaker_time` is a wall-clock timestamp in
hours. -/
structure RiskState where
  current_balance : ℚ
  starting_capital : ℚ
  positions : List (String × Position)
  closed_positions : List ClosedPosition
  daily_loss : ℚ
  consecutive_losses : ℕ
  circuit_breaker_active : Bool
  circuit_breaker_time : ℚ
  deriving DecidableEq, Repr

/-- risk_manager.py lines 567-578, `RiskManager.is_circuit_breaker_active`:
active iff the flag is set and at most 24 hours have elapsed since
activation.  (The source also clears the flag once the cooldown has
passed; the returned value is the same.) -/
def is_circuit_breaker_active (s : RiskState) (now : ℚ) : Bool :=
  s.circuit_breaker_active &&
    !(decide (now - s.circuit_breaker_time > CIRCUIT_BREAKER_COOLDOWN_HOURS))

/-- risk_manager.py lines 371-380: the loop body of the capacity count —
a position is counted when its live value `position.quantity *
current_price` is at least $1 (lines 374-377); when the price lookup
raises (`priceOf _ = none`) the position is counted "to be safe"
(lines 378-380). -/
def counts_toward_capacity (priceOf : String → Option ℚ)
    (e : String × Position) : Bool :=
  match priceOf e.1 with
  | none => true
  | some price => decide (e.2.quantity * price ≥ 1)

/-- risk_manager.py lines 369-380: the open-position capacity count of
`validate_trade` (`meaningful_positions`). -/
def meaningful_positions (positions : List (String × Position))
    (priceOf : String → Option ℚ) : ℕ :=
  (positions.filter (counts_toward_capacity priceOf)).length

/-- The arguments of `RiskManager.validate_trade` / `add_position`
(risk_manager.py lines 347-353). -/
structure OrderRequest where
  symbol : String
  quantity : ℚ
  entry_price : ℚ
  stop_loss_price : ℚ

/-- risk_manager.py lines 347-413, `RiskManager.validate_trade`: global
pause, circuit breaker, capacity (with fail-safe price handling), daily
loss limits, stop-loss validity, balance sufficiency and minimum position
value, in source order with short-circuiting.  The `MAX_POSITION_SIZE_USD`
check of lines 394-397 is skipped because that constant is `None`
(constants.py line 17), exactly as the source skips it. -/
def validate_trade (s : RiskState) (priceOf : String → Option ℚ) (now : ℚ)
    (r : OrderRequest) : ValidationResult :=
  if GLOBAL_TRADING_PAUSE = true then .rejected .tradingPaused
  else if is_circuit_breaker_active s now = true then .rejected .circuitBreakerActive
  else if meaningful_positions s.positions priceOf ≥ MAX_OPEN_POSITIONS then
    .rejected .maxConcurrentPositions
  else if s.daily_loss ≥ DAILY_MAX_LOSS_AUD then .rejected .dailyLossLimitAbs
  else if s.daily_loss / s.starting_capital * 100 ≥ DAILY_MAX_LOSS_PERCENT then
    .rejected .dailyLossLimitPct
  else if r.stop_loss_price ≥ r.entry_price then .rejected .stopLossNotBelowEntry
  else if r.quantity * r.entry_price > s.current_balance then .rejected .insufficientFunds
  else if r.quantity * r.entry_price < MIN_POSITION_VALUE_USD then
    .rejected .belowMinPositionValue
  else .approved

/-- risk_manager.py lines 415-459, `RiskManager.add_position`: re-validates
via `validate_trade` and, on success, constructs the `Position` (lines
444-450) and stores it with `self.positions[symbol] = position`
(line 452) — note there is no check that the symbol is already present;
an existing entry for the same key is overwritten by the dict
assignment. -/
def add_position (s : RiskState) (priceOf : String → Option ℚ) (now : ℚ)
    (r : OrderRequest) : Option Position × RiskState :=
  match validate_trade s priceOf now r with
  | .rejected _ => (none, s)
  | .approved =>
    let p : Position :=
      { symbol := r.symbol, entry_price := r.entry_price, quantity := r.quantity,
        stop_loss := r.stop_loss_price, highest_price := r.entry_price, tp1_hit := false }
    (some p, { s with positions := dictInsert r.symbol p s.positions })

/-- risk_manager.py lines 512-551, `RiskManager.close_position`: looks the
symbol up (returns `None` and leaves the state untouched when absent,
lines 519-520), settles P&L (`(exit - entry) * quantity`), updates the
daily-loss and consecutive-loss counters (increment on loss, reset on
non-loss, lines 526-535), credits the P&L to the balance, appends the
settled position to `closed_positions`, deletes the symbol from the open
map (line 544), and finally activates the circuit breaker when the
counter has reached `MAX_CONSECUTIVE_LOSSES` (lines 548-549,
`activate_circuit_breaker` stamps the current time, lines 580-583). -/
def close_position (s : RiskState) (symbol : String) (exit_price : ℚ) (now : ℚ) :
    Option ClosedPosition × RiskState :=
  match dictGet symbol s.positions with
  | none => (none, s)
  | some p =>
    let pnl := (exit_price - p.entry_price) * p.quantity
    let s1 :=
      if pnl < 0 then
        { s with daily_loss := s.daily_loss + (-pnl),
                 consecutive_losses := s.consecutive_losses + 1 }
      else
        { s with consecutive_losses := 0 }
    let closed : ClosedPosition :=
      { symbol := symbol, entry_price := p.entry_price, quantity := p.quantity,
        exit_price := exit_price, pnl := pnl }
    let s2 :=
      { s1 with current_balance := s1.current_balance + pnl,
                closed_positions := s1.closed_positions ++ [closed],
                positions := dictErase symbol s1.positions }
    let s3 :=
      if s2.consecutive_losses ≥ MAX_CONSECUTIVE_LOSSES then
        { s2 with circuit_breaker_active := true, circuit_breaker_time := now }
      else s2
    (some closed, s3)

end RiskManager

/-! ## The combined pre-trade validation pipeline

signal_generator.py lines 840-884 runs `safety_gates.validate_trade` first
and returns its rejection; only on approval does
`order_manager.execute_entry_order` (order_manager.py lines 104-111) run
`risk_manager.validate_trade`. -/

/-- The validation sequence a trade candidate actually traverses before any
order is placed: the seven safety gates, then the risk-manager gates. -/
def open_pipeline_validate (c : TradeSafetyGates.TradeCandidate)
    (s : RiskManager.RiskState) (priceOf : String → Option ℚ) (now : ℚ)
    (r : RiskManager.OrderRequest) : ValidationResult :=
  match TradeSafetyGates.validate_trade c with
  | .rejected reason => .rejected reason
  | .approved => RiskManager.validate_trade s priceOf now r

/-- The seven safety gates of `TradeSafetyGates.validate_trade` as an
ordered list of `(fails, reason)` pairs, in exactly the order the source
evaluates them (safety_gates.py lines 108-138; the RSI band check is its
two halves). -/
def safety_gate_list (c : TradeSafetyGates.TradeCandidate) :
    List (Bool × RejectReason) :=
  [ (decide (TradeSafetyGates.check_monthly_trade_limit c.strategyCap c.tradeRecords
        c.symbol c.utcNow = false), .monthlyLimitReached),
    (decide (c.actionIsBuy = false), .notBuySignal),
    (decide (c.volume24hUsd < MIN_24H_VOLUME_USD), .insufficientLiquidity),
    (decide (c.confidence < MIN_CONFIDENCE_TO_TRADE), .lowConfidence),
    (decide (c.rsi < MIN_RSI), .rsiTooLow),
    (decide (c.rsi > MAX_RSI), .rsiOverextended),
    (decide (c.activePositions ≥ MAX_OPEN_POSITIONS), .maxPositionsReached),
    (decide (c.accountBalance < 10), .insufficientBalance) ]

/-- The gates of `RiskManager.validate_trade` as an ordered list of
`(fails, reason)` pairs, in exactly the order the source evaluates them
(risk_manager.py lines 361-411). -/
def risk_gate_list (s : RiskManager.RiskState) (priceOf : String → Option ℚ)
    (now : ℚ) (r : RiskManager.OrderRequest) : List (Bool × RejectReason) :=
  [ (decide (GLOBAL_TRADING_PAUSE = true), .tradingPaused),
    (decide (RiskManager.is_circuit_breaker_active s now = true), .circuitBreakerActive),
    (decide (RiskManager.meaningful_positions s.positions priceOf ≥ MAX_OPEN_POSITIONS),
      .maxConcurrentPositions),
    (decide (s.daily_loss ≥ DAILY_MAX_LOSS_AUD), .dailyLossLimitAbs),
    (decide (s.daily_loss / s.starting_capital * 100 ≥ DAILY_MAX_LOSS_PERCENT),
      .dailyLossLimitPct),
    (decide (r.stop_loss_price ≥ r.entry_price), .stopLossNotBelowEntry),
    (decide (r.quantity * r.entry_price > s.current_balance), .insufficientFunds),
    (decide (r.quantity * r.entry_price < MIN_POSITION_VALUE_USD),
      .belowMinPositionValue) ]

/-- The gates of the combined pipeline, in exactly the order the sources
evaluate them: the seven safety gates first, the risk-manager gates
after. -/
def ordered_gates (c : TradeSafetyGates.TradeCandidate)
    (s : RiskManager.RiskState) (priceOf : String → Option ℚ) (now : ℚ)
    (r : RiskManager.OrderRequest) : List (Bool × RejectReason) :=
  safety_gate_list c ++ risk_gate_list s priceOf now r

/-- The first failing gate of an ordered gate list decides the result:
`approved` iff no gate fails. -/
def first_failing : List (Bool × RejectReason) → ValidationResult
  | [] => .approved
  | (b, reason) :: rest => if b then .rejected reason else first_failing rest

namespace Goldilock

/-- goldilock_strategy.py lines 29-61, the exit-relevant fields of
`DEFAULT_CONFIG` (field defaults are the source's default values). -/
structure StrategyConfig where
  initial_stop_pct : ℚ := 8 / 100
  regular_stop_pct : ℚ := 3 / 100
  tp1_pct : ℚ := 15 / 100
  tp2_pct : ℚ := 30 / 100
  tp1_size : ℚ := 50 / 100
  trailing_stop_pct : ℚ := 5 / 100
  min_hold_days : ℕ := 7
  max_hold_days : ℕ := 90

/-- goldilock_strategy.py lines 275-287, `GoldilockStrategy.get_stop_loss`:
the wide initial stop during the minimum hold, the tighter regular stop
afterwards. -/
def get_stop_loss (cfg : StrategyConfig) (entry_price : ℚ) (hold_days : ℕ) : ℚ :=
  if hold_days < cfg.min_hold_days then entry_price * (1 - cfg.initial_stop_pct)
  else entry_price * (1 - cfg.regular_stop_pct)

/-- goldilock_strategy.py lines 289-305, `GoldilockStrategy.get_take_profits`:
`[(price, size_pct)]` pairs — TP1 at `entry * (1 + tp1_pct)` closing
`tp1_size`, TP2 at `entry * (1 + tp2_pct)` closing the remaining 50%. -/
def get_take_profits (cfg : StrategyConfig) (entry_price : ℚ) : List (ℚ × ℚ) :=
  [(entry_price * (1 + cfg.tp1_pct), cfg.tp1_size),
   (entry_price * (1 + cfg.tp2_pct), 50 / 100)]

end Goldilock

namespace PositionMonitor

/-- The parameter names accepted by `OrderManager.close_position`
(order_manager.py line 381: `def close_position(self, symbol, reason)`),
the callee of every exit execution in the monitor. -/
def close_position_params : List String := ["symbol", "reason"]

/-- The keyword arguments the monitor's TP1 branch passes to
`order_manager.close_position` (position_monitor.py lines 237-242). -/
def tp1_call_kwargs : List String := ["symbol", "reason", "quantity_override", "keep_open"]

/-- A Python call raises `TypeError` when it passes a keyword argument the
callee's signature does not declare.  This is the case for the monitor's
TP1 partial-close call. -/
def tp1_call_raises_type_error : Bool :=
  !(tp1_call_kwargs.all (fun k => close_position_params.contains k))

/-- The per-position state the monitor tick reads and writes
(position_monitor.py lines 52-79): a `RiskManager.Position` restricted to
the fields the Goldilock exit logic touches. -/
structure MonitorPosition where
  entry_price : ℚ
  quantity : ℚ
  highest_price : ℚ
  tp1_hit : Bool
  deriving DecidableEq, Repr

/-- The exit decision a single monitoring tick takes for one position
(position_monitor.py lines 94-358). -/
inductive TickAction where
  /-- lines 95-137: full close, wide stop during minimum hold. -/
  | earlyStopLoss
  /-- lines 141-177: full close at the maximum hold. -/
  | maxHoldExit
  /-- lines 179-215: full close at the tightened stop. -/
  | stopLoss
  /-- lines 221-274: TP1 partial close executed and flags set. -/
  | takeProfit1Filled
  /-- lines 230-272: the live TP1 partial-close call failed
  (exception caught at lines 269-272); no state change. -/
  | takeProfit1Error
  /-- lines 276-317: full close at the trailing stop. -/
  | trailingStop
  /-- lines 319-358: full close at the second target. -/
  | takeProfit2
  deriving DecidableEq, Repr

/-- Result of one monitoring tick for one position: the action taken (if
any), the position's state afterwards, and whether a full close was
executed against the ledger. -/
structure TickResult where
  action : Option TickAction
  pos : MonitorPosition
  fullCloseExecuted : Bool
  deriving DecidableEq, Repr

/-- position_monitor.py lines 52-364: one evaluation of the Goldilock exit
state machine for one position at one price tick.

`dry_run` models `DRY_RUN_ENABLED or MONITORING_ONLY` (the guard
`if not DRY_RUN_ENABLED and not MONITORING_ONLY` of lines 104, 148, 186,
231, 287, 329); in dry-run mode no order executes, but the TP1 branch
still sets `tp1_hit` and the watermark (lines 266-267).

Branches, in source order:
 * line 57: a non-positive fetched price skips the tick;
 * lines 77-78: the watermark `highest_price` is raised to the price;
 * lines 95-137: during the minimum hold only the wide stop is checked,
   and `continue` skips every other check;
 * lines 141-177: maximum hold, full close;
 * lines 179-215: tightened stop, full close;
 * lines 221-274: first target — the live partial-close call passes
   `quantity_override`/`keep_open` which `OrderManager.close_position`
   does not accept, so it raises `TypeError`, the handler at lines
   269-272 swallows it, and `tp1_hit` is NOT set (it is only set in the
   `status == 'success'` branch, line 248, or in dry-run, line 266);
 * lines 276-317: trailing stop, armed only when `tp1_hit`, firing on
   `current_price < trail_price` (strict, line 281);
 * lines 319-358: second target, only when `tp1_hit`. -/
def monitor_tick (cfg : Goldilock.StrategyConfig) (dry_run : Bool)
    (pos : MonitorPosition) (current_price : ℚ) (hold_days : ℕ) : TickResult :=
  if current_price ≤ 0 then { action := none, pos := pos, fullCloseExecuted := false }
  else
    let pos :=
      if current_price > pos.highest_price then
        { pos with highest_price := current_price }
      else pos
    let dynamic_stop_loss := Goldilock.get_stop_loss cfg pos.entry_price hold_days
    let tp_levels := Goldilock.get_take_profits cfg pos.entry_price
    if hold_days < cfg.min_hold_days then
      if current_price ≤ dynamic_stop_loss then
        { action := some .earlyStopLoss, pos := pos, fullCloseExecuted := !dry_run }
      else { action := none, pos := pos, fullCloseExecuted := false }
    else if hold_days ≥ cfg.max_hold_days then
      { action := some .maxHoldExit, pos := pos, fullCloseExecuted := !dry_run }
    else if current_price ≤ dynamic_stop_loss then
      { action := some .stopLoss, pos := pos, fullCloseExecuted := !dry_run }
    else if pos.tp1_hit = false ∧ tp_levels.length > 0 ∧
        current_price ≥ (tp_levels.headI).1 then
      if dry_run then
        { action := some .takeProfit1Filled,
          pos := { pos with tp1_hit := true, highest_price := current_price },
          fullCloseExecuted := false }
      else if tp1_call_raises_type_error then
        { action := some .takeProfit1Error, pos := pos, fullCloseExecuted := false }
      else
        { action := some .takeProfit1Filled,
          pos := { pos with tp1_hit := true, highest_price := current_price },
          fullCloseExecuted := false }
    else if pos.tp1_hit = true ∧
        current_price < pos.highest_price * (1 - cfg.trailing_stop_pct) then
      { action := some .trailingStop, pos := pos, fullCloseExecuted := !dry_run }
    else if pos.tp1_hit = true ∧ tp_levels.length > 1 ∧
        current_price ≥ (tp_levels.getD 1 (0, 0)).1 then
      { action := some .takeProfit2, pos := pos, fullCloseExecuted := !dry_run }
    else { action := none, pos := pos, fullCloseExecuted := false }

end PositionMonitor

/-! ## Helper lemmas about the positions dictionary -/

namespace RiskManager

/-- Deleting a key removes it from lookup. -/
theorem dictGet_dictErase (k : String) (m : List (String × Position)) :
    dictGet k (dictErase k m) = none := by
  induction m with
  | nil => rfl
  | cons e t ih =>
      by_cases h : e.1 = k
      · simp only [dictErase, List.filter_cons, h] at ih ⊢
        simp at ih ⊢
        exact ih
      · simp only [dictErase, List.filter_cons, h] at ih ⊢
        simp [dictGet, List.find?_cons, h] at ih ⊢
        try exact ih

/-- Assigning a key makes it the value found by lookup. -/
theorem dictGet_dictInsert (k : String) (v : Position) (m : List (String × Position)) :
    dictGet k (dictInsert k v m) = some v := by
  induction m with
  | nil => simp [dictInsert, dictGet, List.find?_cons]
  | cons e t ih =>
      by_cases h : e.1 = k
      · simp [dictInsert, List.any_cons, h, dictGet, List.find?_cons, List.map_cons]
      · by_cases h2 : t.any (fun e => decide (e.1 = k)) = true
        · have ih2 := ih
          rw [dictInsert, if_pos h2] at ih2
          rw [dictInsert, if_pos (show (e :: t).any (fun e => decide (e.1 = k)) = true by
            simp [List.any_cons, h2])]
          simpa [dictGet, List.map_cons, List.find?_cons, h] using ih2
        · have h2' : t.any (fun e => decide (e.1 = k)) = false :=
            Bool.eq_false_iff.mpr h2
          have ih2 := ih
          rw [dictInsert, if_neg (by simp [h2'])] at ih2
          rw [dictInsert, if_neg (show ¬(e :: t).any (fun e => decide (e.1 = k)) = true by
            simp [List.any_cons, h, h2'])]
          simpa [dictGet, List.cons_append, List.find?_cons, h] using ih2

/-- The state after a close has the symbol erased from the open map. -/
theorem close_position_positions (s : RiskState) (symbol : String)
    (exit_price now : ℚ) (p : Position) (h : dictGet symbol s.positions = some p) :
    ((close_position s symbol exit_price now).2).positions = dictErase symbol s.positions := by
  simp only [close_position, h]
  split_ifs <;> rfl

end RiskManager

/-! ## Claim theorems -/

/-- C2 (corrected), counterexample to the claim as stated: on the concrete
ledger holding one DOGEUSDT position (entry $100, quantity 1), the first
`close_position` at $90 returns the settled record (P&L −$10), but a
second `close_position` on the same symbol returns `none` — not the
previously recorded result, which the claim asserts. -/
theorem close_twice_returns_none_not_prior_result :
    (RiskManager.close_position
        { current_balance := 1000, starting_capital := 1000,
          positions := [("DOGEUSDT",
            { symbol := "DOGEUSDT", entry_price := 100, quantity := 1,
              stop_loss := 97, highest_price := 100, tp1_hit := false })],
          closed_positions := [], daily_loss := 0, consecutive_losses := 0,
          circuit_breaker_active := false, circuit_breaker_time := 0 }
        "DOGEUSDT" 90 5).1 =
      some { symbol := "DOGEUSDT", entry_price := 100, quantity := 1,
             exit_price := 90, pnl := -10 } ∧
    (RiskManager.close_position
        (RiskManager.close_position
          { current_balance := 1000, starting_capital := 1000,
            positions := [("DOGEUSDT",
              { symbol := "DOGEUSDT", entry_price := 100, quantity := 1,
                stop_loss := 97, highest_price := 100, tp1_hit := false })],
            closed_positions := [], daily_loss := 0, consecutive_losses := 0,
            circuit_breaker_active := false, circuit_breaker_time := 0 }
          "DOGEUSDT" 90 5).2
        "DOGEUSDT" 90 6).1 = none ∧
    (none : Option RiskManager.ClosedPosition) ≠
      some { symbol := "DOGEUSDT", entry_price := 100, quantity := 1,
             exit_price := 90, pnl := -10 } := by
  refine ⟨?_, ?_, by decide⟩
  · norm_num [RiskManager.close_position, RiskManager.dictGet, List.find?_cons]
  · norm_num [RiskManager.close_position, RiskManager.dictGet, RiskManager.dictErase,
      MAX_CONSECUTIVE_LOSSES, List.find?_cons, List.filter_cons]

/-- C2 (corrected, amended claim): a second `Close` on the same symbol after
a first `Close` is a complete no-op — it returns `none` (the position was
deleted from the open map by the first close, risk_manager.py line 544)
and leaves the whole risk state, in particular `current_balance`,
`daily_loss` and `consecutive_losses`, unchanged: no P&L is ever
double-counted. -/
theorem close_position_idempotent_noop (s : RiskManager.RiskState)
    (symbol : String) (p1 n1 p2 n2 : ℚ) :
    RiskManager.close_position
        ((RiskManager.close_position s symbol p1 n1).2) symbol p2 n2 =
      (none, (RiskManager.close_position s symbol p1 n1).2) := by
  cases h : RiskManager.dictGet symbol s.positions with
  | none =>
      have hs : (RiskManager.close_position s symbol p1 n1).2 = s := by
        simp [RiskManager.close_position, h]
      rw [hs]
      simp [RiskManager.close_position, h]
  | some p =>
      have h2 : RiskManager.dictGet symbol
          ((RiskManager.close_position s symbol p1 n1).2).positions = none := by
        rw [RiskManager.close_position_positions s symbol p1 n1 p h]
        exact RiskManager.dictGet_dictErase symbol s.positions
      revert h2
      generalize (RiskManager.close_position s symbol p1 n1).2 = s1
      intro h2
      simp [RiskManager.close_position, h2]

/-- C3 (corrected), counterexample to the claim as stated: the ledger holds
an open DOGEUSDT position (quantity 1); a second `add_position` for
DOGEUSDT (quantity 1/10) passes every gate of `validate_trade` (which has
no already-open check), returns the new position instead of a rejection,
and overwrites the existing entry — the existing position is not left
unchanged. -/
theorem add_position_overwrites_open_symbol :
    (RiskManager.add_position
        { current_balance := 1000, starting_capital := 1000,
          positions := [("DOGEUSDT",
            { symbol := "DOGEUSDT", entry_price := 100, quantity := 1,
              stop_loss := 97, highest_price := 100, tp1_hit := false })],
          closed_positions := [], daily_loss := 0, consecutive_losses := 0,
          circuit_breaker_active := false, circuit_breaker_time := 0 }
        (fun _ => some 100) 0
        { symbol := "DOGEUSDT", quantity := 1 / 10, entry_price := 100,
          stop_loss_price := 97 }).1 =
      some { symbol := "DOGEUSDT", entry_price := 100, quantity := 1 / 10,
             stop_loss := 97, highest_price := 100, tp1_hit := false } ∧
    RiskManager.dictGet "DOGEUSDT"
        ((RiskManager.add_position
            { current_balance := 1000, starting_capital := 1000,
              positions := [("DOGEUSDT",
                { symbol := "DOGEUSDT", entry_price := 100, quantity := 1,
                  stop_loss := 97, highest_price := 100, tp1_hit := false })],
              closed_positions := [], daily_loss := 0, consecutive_losses := 0,
              circuit_breaker_active := false, circuit_breaker_time := 0 }
            (fun _ => some 100) 0
            { symbol := "DOGEUSDT", quantity := 1 / 10, entry_price := 100,
              stop_loss_price := 97 }).2).positions =
      some { symbol := "DOGEUSDT", entry_price := 100, quantity := 1 / 10,
             stop_loss := 97, highest_price := 100, tp1_hit := false } ∧
    ({ symbol := "DOGEUSDT", entry_price := 100, quantity := 1 / 10,
       stop_loss := 97, highest_price := 100, tp1_hit := false } : RiskManager.Position) ≠
      { symbol := "DOGEUSDT", entry_price := 100, quantity := 1,
        stop_loss := 97, highest_price := 100, tp1_hit := false } := by
  refine ⟨?_, ?_, by norm_num⟩
  · norm_num [RiskManager.add_position, RiskManager.validate_trade,
      RiskManager.is_circuit_breaker_active, RiskManager.meaningful_positions, RiskManager.counts_toward_capacity,
      GLOBAL_TRADING_PAUSE, MAX_OPEN_POSITIONS, DAILY_MAX_LOSS_AUD,
      DAILY_MAX_LOSS_PERCENT, MIN_POSITION_VALUE_USD, List.filter_cons]
  · norm_num [RiskManager.add_position, RiskManager.validate_trade,
      RiskManager.is_circuit_breaker_active, RiskManager.meaningful_positions, RiskManager.counts_toward_capacity,
      RiskManager.dictGet, RiskManager.dictInsert,
      GLOBAL_TRADING_PAUSE, MAX_OPEN_POSITIONS, DAILY_MAX_LOSS_AUD,
      DAILY_MAX_LOSS_PERCENT, MIN_POSITION_VALUE_USD,
      List.filter_cons, List.any_cons, List.find?_cons]

/-- C3 (corrected, amended claim): `add_position` performs no
already-open check — when its gate validation approves the request, the
call succeeds even for a symbol that already has an open position, and
the dict assignment `self.positions[symbol] = position`
(risk_manager.py line 452) replaces the existing entry with the new
position (so the map still holds at most one position per symbol, but
the prior position is silently overwritten, not preserved, and no
`PositionAlreadyOpen` rejection exists). -/
theorem add_position_replaces_existing (s : RiskManager.RiskState)
    (priceOf : String → Option ℚ) (now : ℚ) (r : RiskManager.OrderRequest)
    (old : RiskManager.Position)
    (hv : RiskManager.validate_trade s priceOf now r = .approved)
    (_hold : RiskManager.dictGet r.symbol s.positions = some old) :
    (RiskManager.add_position s priceOf now r).1 =
      some { symbol := r.symbol, entry_price := r.entry_price, quantity := r.quantity,
             stop_loss := r.stop_loss_price, highest_price := r.entry_price,
             tp1_hit := false } ∧
    RiskManager.dictGet r.symbol ((RiskManager.add_position s priceOf now r).2).positions =
      some { symbol := r.symbol, entry_price := r.entry_price, quantity := r.quantity,
             stop_loss := r.stop_loss_price, highest_price := r.entry_price,
             tp1_hit := false } := by
  constructor
  · simp [RiskManager.add_position, hv]
  · simp [RiskManager.add_position, hv, RiskManager.dictGet_dictInsert]

/-- C3 witness: the amended theorem applied to the concrete
already-open-DOGEUSDT ledger of the counterexample. -/
theorem add_position_replaces_existing_witness :
    (RiskManager.add_position
        { current_balance := 1000, starting_capital := 1000,
          positions := [("DOGEUSDT",
            { symbol := "DOGEUSDT", entry_price := 100, quantity := 1,
              stop_loss := 97, highest_price := 100, tp1_hit := false })],
          closed_positions := [], daily_loss := 0, consecutive_losses := 0,
          circuit_breaker_active := false, circuit_breaker_time := 0 }
        (fun _ => some 100) 0
        { symbol := "DOGEUSDT", quantity := 1 / 10, entry_price := 100,
          stop_loss_price := 97 }).1 =
      some { symbol := "DOGEUSDT", entry_price := 100, quantity := 1 / 10,
             stop_loss := 97, highest_price := 100, tp1_hit := false } ∧
    RiskManager.dictGet "DOGEUSDT"
        ((RiskManager.add_position
            { current_balance := 1000, starting_capital := 1000,
              positions := [("DOGEUSDT",
                { symbol := "DOGEUSDT", entry_price := 100, quantity := 1,
                  stop_loss := 97, highest_price := 100, tp1_hit := false })],
              closed_positions := [], daily_loss := 0, consecutive_losses := 0,
              circuit_breaker_active := false, circuit_breaker_time := 0 }
            (fun _ => some 100) 0
            { symbol := "DOGEUSDT", quantity := 1 / 10, entry_price := 100,
              stop_loss_price := 97 }).2).positions =
      some { symbol := "DOGEUSDT", entry_price := 100, quantity := 1 / 10,
             stop_loss := 97, highest_price := 100, tp1_hit := false } :=
  add_position_replaces_existing _ _ _ _
    { symbol := "DOGEUSDT", entry_price := 100, quantity := 1,
      stop_loss := 97, highest_price := 100, tp1_hit := false }
    (by norm_num [RiskManager.validate_trade, RiskManager.is_circuit_breaker_active,
      RiskManager.meaningful_positions, RiskManager.counts_toward_capacity, GLOBAL_TRADING_PAUSE, MAX_OPEN_POSITIONS,
      DAILY_MAX_LOSS_AUD, DAILY_MAX_LOSS_PERCENT, MIN_POSITION_VALUE_USD,
      List.filter_cons])
    (by norm_num [RiskManager.dictGet, List.find?_cons])

/-- C4 (code_bug): on a live tick (dry-run off) that reaches the first
target — Goldilock defaults, entry $0.1220 so TP1 = $0.1403, price
$0.1410, hold day 10 — the TP1 partial close does not execute: the call
passes keyword arguments (`quantity_override`, `keep_open`) that
`OrderManager.close_position` does not declare, so it raises `TypeError`
(swallowed by the handler), `tp1_hit` stays false, no close reaches the
ledger, and the identical TP1 attempt fires again on the next tick at the
same price — contradicting the specified exactly-one partial close with
`first_target_hit` set. -/
theorem tp1_partial_close_never_executes_live :
    PositionMonitor.tp1_call_raises_type_error = true ∧
    (PositionMonitor.monitor_tick {} false
        { entry_price := 61 / 500, quantity := 1000, highest_price := 125 / 1000,
          tp1_hit := false } (141 / 1000) 10).action =
      some .takeProfit1Error ∧
    (PositionMonitor.monitor_tick {} false
        { entry_price := 61 / 500, quantity := 1000, highest_price := 125 / 1000,
          tp1_hit := false } (141 / 1000) 10).pos.tp1_hit = false ∧
    (PositionMonitor.monitor_tick {} false
        { entry_price := 61 / 500, quantity := 1000, highest_price := 125 / 1000,
          tp1_hit := false } (141 / 1000) 10).fullCloseExecuted = false ∧
    (PositionMonitor.monitor_tick {} false
        ((PositionMonitor.monitor_tick {} false
          { entry_price := 61 / 500, quantity := 1000, highest_price := 125 / 1000,
            tp1_hit := false } (141 / 1000) 10).pos) (141 / 1000) 10).action =
      some .takeProfit1Error := by
  refine ⟨by decide, ?_, ?_, ?_, ?_⟩ <;>
    norm_num [PositionMonitor.monitor_tick, Goldilock.get_stop_loss,
      Goldilock.get_take_profits, List.headI,
      show PositionMonitor.tp1_call_raises_type_error = true from by decide]

/-- C5 (confirmed): during the minimum hold period (`hold_days <
min_hold_days`), the only exit the monitoring tick can take is the wide
early stop: the tick's action is `earlyStopLoss` exactly when
`price ≤ entry_price * (1 - initial_stop_pct)` and nothing otherwise —
in particular no take-profit, trailing-stop or second-target action can
fire during the minimum hold. -/
theorem min_hold_only_early_stop (cfg : Goldilock.StrategyConfig) (dry : Bool)
    (pos : PositionMonitor.MonitorPosition) (price : ℚ) (hold : ℕ)
    (hmin : hold < cfg.min_hold_days) (hpos : 0 < price) :
    (PositionMonitor.monitor_tick cfg dry pos price hold).action =
      (if price ≤ pos.entry_price * (1 - cfg.initial_stop_pct) then
        some .earlyStopLoss else none) := by
  have h0 : ¬price ≤ 0 := not_le.mpr hpos
  simp only [PositionMonitor.monitor_tick, Goldilock.get_stop_loss, h0, hmin,
    if_true, if_false, ite_true, ite_false]
  split_ifs <;> rfl

/-- C5 witness: Goldilock defaults, entry $100 (initial stop 8% → $92),
day 3: at price $91 the tick closes with the early stop. -/
theorem min_hold_only_early_stop_witness :
    (PositionMonitor.monitor_tick {} false
        { entry_price := 100, quantity := 1, highest_price := 100, tp1_hit := false }
        91 3).action =
      (if (91 : ℚ) ≤ 100 * (1 - ({} : Goldilock.StrategyConfig).initial_stop_pct) then
        some .earlyStopLoss else none) :=
  min_hold_only_early_stop {} false
    { entry_price := 100, quantity := 1, highest_price := 100, tp1_hit := false }
    91 3 (by decide) (by norm_num)

/-- C6 (corrected), counterexample to the claim as stated: with the first
target hit, watermark $0.1450 and trailing 5%, the trail level is exactly
$0.13775; a tick at exactly that price does NOT close the position
(position_monitor.py line 281 compares with strict `<`), although the
claim says a price falling "to or below" the level closes with
`TrailingStop`. -/
theorem trailing_stop_not_fired_at_exact_level :
    (29 : ℚ) / 200 * (1 - ({} : Goldilock.StrategyConfig).trailing_stop_pct) =
      551 / 4000 ∧
    (PositionMonitor.monitor_tick {} false
        { entry_price := 61 / 500, quantity := 1000, highest_price := 29 / 200,
          tp1_hit := true } (551 / 4000) 10).action = none ∧
    (none : Option PositionMonitor.TickAction) ≠ some .trailingStop := by
  refine ⟨by norm_num, ?_, by decide⟩
  norm_num [PositionMonitor.monitor_tick, Goldilock.get_stop_loss,
    Goldilock.get_take_profits, List.headI, List.getD]

/-- C6 (corrected, amended claim): the trailing stop arms only after the
first target — for a position with `tp1_hit` true, a tick whose price
falls strictly below `highest_price * (1 - trailing_stop_pct)` (and hits
no earlier gate: past minimum hold, before maximum hold, above the
tightened stop, below the watermark) closes the position fully with
`TrailingStop`; for a position with `tp1_hit` false, no tick ever takes
the trailing-stop action. -/
theorem trailing_stop_strict_after_tp1 :
    (∀ (cfg : Goldilock.StrategyConfig) (dry : Bool)
      (pos : PositionMonitor.MonitorPosition) (price : ℚ) (hold : ℕ),
      pos.tp1_hit = true →
      cfg.min_hold_days ≤ hold → hold < cfg.max_hold_days →
      0 < price →
      pos.entry_price * (1 - cfg.regular_stop_pct) < price →
      price ≤ pos.highest_price →
      price < pos.highest_price * (1 - cfg.trailing_stop_pct) →
      (PositionMonitor.monitor_tick cfg dry pos price hold).action =
        some .trailingStop) ∧
    (∀ (cfg : Goldilock.StrategyConfig) (dry : Bool)
      (pos : PositionMonitor.MonitorPosition) (price : ℚ) (hold : ℕ),
      pos.tp1_hit = false →
      (PositionMonitor.monitor_tick cfg dry pos price hold).action ≠
        some .trailingStop) := by
  constructor
  · intro cfg dry pos price hold htp1 hmin hmax hp hstop hwm htrail
    have h0 : ¬price ≤ 0 := not_le.mpr hp
    have hw : ¬price > pos.highest_price := not_lt.mpr hwm
    have hminn : ¬hold < cfg.min_hold_days := not_lt.mpr hmin
    have hmaxn : ¬hold ≥ cfg.max_hold_days := not_le.mpr hmax
    have hsl : ¬price ≤ pos.entry_price * (1 - cfg.regular_stop_pct) := not_le.mpr hstop
    simp [PositionMonitor.monitor_tick, Goldilock.get_stop_loss,
      Goldilock.get_take_profits, h0, hw, hminn, hmaxn, hsl, htp1, htrail]
  · intro cfg dry pos price hold htp1
    simp only [PositionMonitor.monitor_tick]
    split_ifs <;> simp_all

/-- C6 witness: Goldilock defaults, entry $0.1220, watermark $0.1450,
price $0.1370 < trail level $0.13775, day 10: with `tp1_hit` true the
tick closes with `TrailingStop`; with `tp1_hit` false the same tick does
not take the trailing-stop action. -/
theorem trailing_stop_strict_after_tp1_witness :
    (PositionMonitor.monitor_tick {} false
        { entry_price := 61 / 500, quantity := 1000, highest_price := 29 / 200,
          tp1_hit := true } (137 / 1000) 10).action = some .trailingStop ∧
    (PositionMonitor.monitor_tick {} false
        { entry_price := 61 / 500, quantity := 1000, highest_price := 29 / 200,
          tp1_hit := false } (137 / 1000) 10).action ≠ some .trailingStop :=
  ⟨trailing_stop_strict_after_tp1.1 {} false
      { entry_price := 61 / 500, quantity := 1000, highest_price := 29 / 200,
        tp1_hit := true } (137 / 1000) 10
      rfl (by decide) (by decide) (by norm_num) (by norm_num) (by norm_num)
      (by norm_num),
   trailing_stop_strict_after_tp1.2 {} false
      { entry_price := 61 / 500, quantity := 1000, highest_price := 29 / 200,
        tp1_hit := false } (137 / 1000) 10 rfl⟩

/-- C7 (confirmed): the consecutive-loss circuit breaker — a losing full
close increments `consecutive_losses`, a non-losing full close resets it
to 0, the close that brings the counter to `MAX_CONSECUTIVE_LOSSES`
activates the breaker and stamps the activation time; while at most the
24-hour cooldown has elapsed every validation is rejected with
`CircuitBreakerActive`, and once more than the cooldown has elapsed no
validation is rejected for that reason. -/
theorem circuit_breaker_mechanism :
    (∀ (s : RiskManager.RiskState) (sym : String) (exit_price now : ℚ)
      (p : RiskManager.Position),
      RiskManager.dictGet sym s.positions = some p →
      (exit_price - p.entry_price) * p.quantity < 0 →
      ((RiskManager.close_position s sym exit_price now).2).consecutive_losses =
        s.consecutive_losses + 1) ∧
    (∀ (s : RiskManager.RiskState) (sym : String) (exit_price now : ℚ)
      (p : RiskManager.Position),
      RiskManager.dictGet sym s.positions = some p →
      0 ≤ (exit_price - p.entry_price) * p.quantity →
      ((RiskManager.close_position s sym exit_price now).2).consecutive_losses = 0) ∧
    (∀ (s : RiskManager.RiskState) (sym : String) (exit_price now : ℚ)
      (p : RiskManager.Position),
      RiskManager.dictGet sym s.positions = some p →
      (exit_price - p.entry_price) * p.quantity < 0 →
      MAX_CONSECUTIVE_LOSSES ≤ s.consecutive_losses + 1 →
      ((RiskManager.close_position s sym exit_price now).2).circuit_breaker_active = true ∧
      ((RiskManager.close_position s sym exit_price now).2).circuit_breaker_time = now) ∧
    (∀ (s : RiskManager.RiskState) (priceOf : String → Option ℚ) (now : ℚ)
      (r : RiskManager.OrderRequest),
      s.circuit_breaker_active = true →
      now - s.circuit_breaker_time ≤ CIRCUIT_BREAKER_COOLDOWN_HOURS →
      RiskManager.validate_trade s priceOf now r = .rejected .circuitBreakerActive) ∧
    (∀ (s : RiskManager.RiskState) (priceOf : String → Option ℚ) (now : ℚ)
      (r : RiskManager.OrderRequest),
      now - s.circuit_breaker_time > CIRCUIT_BREAKER_COOLDOWN_HOURS →
      RiskManager.validate_trade s priceOf now r ≠ .rejected .circuitBreakerActive) := by
  refine ⟨?_, ?_, ?_, ?_, ?_⟩
  · intro s sym exit_price now p h hl
    simp only [RiskManager.close_position, h, if_pos hl]
    split_ifs <;> rfl
  · intro s sym exit_price now p h hnl
    simp [RiskManager.close_position, h, not_lt.mpr hnl, MAX_CONSECUTIVE_LOSSES]
  · intro s sym exit_price now p h hl hthr
    simp [RiskManager.close_position, h, hl, hthr]
  · intro s priceOf now r hcb ht
    have hact : RiskManager.is_circuit_breaker_active s now = true := by
      simp [RiskManager.is_circuit_breaker_active, hcb, not_lt.mpr ht]
    simp [RiskManager.validate_trade, GLOBAL_TRADING_PAUSE, hact]
  · intro s priceOf now r ht
    have hact : RiskManager.is_circuit_breaker_active s now = false := by
      simp [RiskManager.is_circuit_breaker_active, ht]
    simp only [RiskManager.validate_trade, GLOBAL_TRADING_PAUSE, hact]
    split_ifs <;> simp

/-- C7 witness: a ledger two losses deep; a third losing close (entry $100,
exit $90) activates the breaker and stamps the close time (hour 7); a
validation at hour 20 (13h elapsed) is rejected `CircuitBreakerActive`;
a validation at hour 40 (33h elapsed) is not rejected for that reason. -/
theorem circuit_breaker_mechanism_witness :
    ((RiskManager.close_position
        { current_balance := 1000, starting_capital := 1000,
          positions := [("SOLUSDT",
            { symbol := "SOLUSDT", entry_price := 100, quantity := 1,
              stop_loss := 97, highest_price := 100, tp1_hit := false })],
          closed_positions := [], daily_loss := 0, consecutive_losses := 2,
          circuit_breaker_active := false, circuit_breaker_time := 0 }
        "SOLUSDT" 90 7).2).consecutive_losses = 2 + 1 ∧
    ((RiskManager.close_position
        { current_balance := 1000, starting_capital := 1000,
          positions := [("SOLUSDT",
            { symbol := "SOLUSDT", entry_price := 100, quantity := 1,
              stop_loss := 97, highest_price := 100, tp1_hit := false })],
          closed_positions := [], daily_loss := 0, consecutive_losses := 2,
          circuit_breaker_active := false, circuit_breaker_time := 0 }
        "SOLUSDT" 110 7).2).consecutive_losses = 0 ∧
    ((RiskManager.close_position
        { current_balance := 1000, starting_capital := 1000,
          positions := [("SOLUSDT",
            { symbol := "SOLUSDT", entry_price := 100, quantity := 1,
              stop_loss := 97, highest_price := 100, tp1_hit := false })],
          closed_positions := [], daily_loss := 0, consecutive_losses := 2,
          circuit_breaker_active := false, circuit_breaker_time := 0 }
        "SOLUSDT" 90 7).2).circuit_breaker_active = true ∧
    RiskManager.validate_trade
        { current_balance := 1000, starting_capital := 1000, positions := [],
          closed_positions := [], daily_loss := 0, consecutive_losses := 3,
          circuit_breaker_active := true, circuit_breaker_time := 7 }
        (fun _ => some 1) 20
        { symbol := "SOLUSDT", quantity := 1, entry_price := 100,
          stop_loss_price := 97 } = .rejected .circuitBreakerActive ∧
    RiskManager.validate_trade
        { current_balance := 1000, starting_capital := 1000, positions := [],
          closed_positions := [], daily_loss := 0, consecutive_losses := 3,
          circuit_breaker_active := true, circuit_breaker_time := 7 }
        (fun _ => some 1) 40
        { symbol := "SOLUSDT", quantity := 1, entry_price := 100,
          stop_loss_price := 97 } ≠ .rejected .circuitBreakerActive := by
  refine ⟨?_, ?_, ?_, ?_, ?_⟩
  · exact circuit_breaker_mechanism.1 _ "SOLUSDT" 90 7
      { symbol := "SOLUSDT", entry_price := 100, quantity := 1,
        stop_loss := 97, highest_price := 100, tp1_hit := false }
      (by norm_num [RiskManager.dictGet, List.find?_cons]) (by norm_num)
  · exact circuit_breaker_mechanism.2.1 _ "SOLUSDT" 110 7
      { symbol := "SOLUSDT", entry_price := 100, quantity := 1,
        stop_loss := 97, highest_price := 100, tp1_hit := false }
      (by norm_num [RiskManager.dictGet, List.find?_cons]) (by norm_num)
  · exact (circuit_breaker_mechanism.2.2.1 _ "SOLUSDT" 90 7
      { symbol := "SOLUSDT", entry_price := 100, quantity := 1,
        stop_loss := 97, highest_price := 100, tp1_hit := false }
      (by norm_num [RiskManager.dictGet, List.find?_cons]) (by norm_num)
      (by decide)).1
  · exact circuit_breaker_mechanism.2.2.2.1 _ _ 20 _ rfl
      (by norm_num [CIRCUIT_BREAKER_COOLDOWN_HOURS])
  · exact circuit_breaker_mechanism.2.2.2.2 _ _ 40 _
      (by norm_num [CIRCUIT_BREAKER_COOLDOWN_HOURS])

/-- Helper for C8: the post-clamp notional never exceeds the usable
balance when the usable balance is non-negative. -/
theorem clamped_value_le_usable (usable pct : ℚ) (h : 0 ≤ usable) :
    (if usable * pct > usable then usable * (1 / 2) else usable * pct) ≤ usable := by
  split_ifs with h2
  · linarith
  · exact not_lt.mp h2

/-- C8 (corrected), counterexample to the claim's numeric example: with
balance $206.26 and a `position_size_fraction` of 5.4% the code computes
`notional = 206.26 * 0.90 * 0.054 = $10.024236`, which is not within one
cent of the claimed $11.14. -/
theorem position_size_example_not_11_14 :
    (TradeSafetyGates.calculate_position_size "ADAUSDT" (some (54 / 1000))
        (20626 / 100) 1).2 = 2506059 / 250000 ∧
    ¬|(TradeSafetyGates.calculate_position_size "ADAUSDT" (some (54 / 1000))
        (20626 / 100) 1).2 - 1114 / 100| < 1 / 100 := by
  constructor <;>
    norm_num [TradeSafetyGates.calculate_position_size,
      TradeSafetyGates.portfolio_allocations, BALANCE_BUFFER_PERCENT,
      MAX_POSITION_EXPOSURE_PERCENT, List.find?_cons, abs,
        show decide ("DOGEUSDT" = "ADAUSDT") = false from by decide,
        show decide ("SHIBUSDT" = "ADAUSDT") = false from by decide,
        show decide ("SOLUSDT" = "ADAUSDT") = false from by decide]

/-- C8 (corrected, amended claim): position sizing never returns a
notional exceeding the usable balance (balance minus the 10% safety
buffer) for any non-negative balance; with balance $206.26 and the 6%
default fraction for an unconfigured symbol, the notional is $11.13804,
within one cent of $11.14; a computed notional exceeding the usable
balance is clamped to 50% of the usable balance rather than failing; and
for price ≤ 0 the quantity is 0 — the function returns normally with the
notional (there is no `InvalidPrice` failure channel in the code). -/
theorem position_size_bounds :
    (∀ (symbol : String) (strategyPct : Option ℚ) (balance price : ℚ),
      0 ≤ balance →
      (TradeSafetyGates.calculate_position_size symbol strategyPct balance price).2 ≤
        balance * BALANCE_BUFFER_PERCENT) ∧
    ((TradeSafetyGates.calculate_position_size "ADAUSDT" none (20626 / 100) 1).2 =
        1113804 / 100000 ∧
      |(TradeSafetyGates.calculate_position_size "ADAUSDT" none (20626 / 100) 1).2 -
          1114 / 100| < 1 / 100) ∧
    (∀ (symbol : String) (strategyPct : Option ℚ) (balance price : ℚ),
      price ≤ 0 →
      (TradeSafetyGates.calculate_position_size symbol strategyPct balance price).1 = 0) ∧
    (∀ (p balance price : ℚ),
      balance * BALANCE_BUFFER_PERCENT * p > balance * BALANCE_BUFFER_PERCENT →
      (TradeSafetyGates.calculate_position_size "ADAUSDT" (some p) balance price).2 =
        balance * BALANCE_BUFFER_PERCENT * (1 / 2)) := by
  refine ⟨?_, ?_, ?_, ?_⟩
  · intro symbol strategyPct balance price hb
    simp only [TradeSafetyGates.calculate_position_size]
    exact clamped_value_le_usable _ _
      (mul_nonneg hb (by norm_num [BALANCE_BUFFER_PERCENT]))
  · constructor <;>
      norm_num [TradeSafetyGates.calculate_position_size,
        TradeSafetyGates.portfolio_allocations, BALANCE_BUFFER_PERCENT,
        MAX_POSITION_EXPOSURE_PERCENT, List.find?_cons, abs,
        show decide ("DOGEUSDT" = "ADAUSDT") = false from by decide,
        show decide ("SHIBUSDT" = "ADAUSDT") = false from by decide,
        show decide ("SOLUSDT" = "ADAUSDT") = false from by decide]
  · intro symbol strategyPct balance price hp
    simp [TradeSafetyGates.calculate_position_size, not_lt.mpr hp]
  · intro p balance price hgt
    simp [TradeSafetyGates.calculate_position_size,
      TradeSafetyGates.portfolio_allocations, List.find?_cons, hgt]

/-- C8 witness: the bounds applied at concrete inputs — balance $206.26
(notional capped by the usable balance), a negative price (quantity 0),
and a 200% fraction (clamped to half the usable balance). -/
theorem position_size_bounds_witness :
    (TradeSafetyGates.calculate_position_size "ADAUSDT" none (20626 / 100) 2).2 ≤
      (20626 / 100) * BALANCE_BUFFER_PERCENT ∧
    (TradeSafetyGates.calculate_position_size "ADAUSDT" none (20626 / 100) (-1)).1 = 0 ∧
    (TradeSafetyGates.calculate_position_size "ADAUSDT" (some 2) 100 1).2 =
      100 * BALANCE_BUFFER_PERCENT * (1 / 2) :=
  ⟨position_size_bounds.1 "ADAUSDT" none (20626 / 100) 2 (by norm_num),
   position_size_bounds.2.2.1 "ADAUSDT" none (20626 / 100) (-1) (by norm_num),
   position_size_bounds.2.2.2 2 100 1 (by norm_num [BALANCE_BUFFER_PERCENT])⟩

/-- Helper for C9: removing an equal head component does not change the
lexicographic comparison. -/
theorem lexLt_cons_same (a : ℕ) (as bs : List ℕ) :
    DateTime.lexLt (a :: as) (a :: bs) = DateTime.lexLt as bs := by
  simp only [DateTime.lexLt]
  rw [if_neg (lt_irrefl a)]
  simp

/-- Helper for C9: a component list starting with a day ≥ 1 is not
lexicographically before `[1, 0, 0, 0]` (the start-of-month tail). -/
theorem lexLt_day_tail (d a b c : ℕ) (hd : 1 ≤ d) :
    DateTime.lexLt [d, a, b, c] [1, 0, 0, 0] = false := by
  simp only [DateTime.lexLt]
  split_ifs <;> first | rfl | (exfalso; omega)

/-- Helper for C9: a timestamp with the same year and month as `now` and a
well-formed day (`1 ≤ day`) is not before the start of `now`'s month. -/
theorem ltB_to_month_start_false (now t : DateTime)
    (hy : t.year = now.year) (hm : t.month = now.month) (hd : 1 ≤ t.day) :
    DateTime.ltB t (TradeSafetyGates.month_start now) = false := by
  simp only [DateTime.ltB, DateTime.toList, TradeSafetyGates.month_start, hy, hm,
    lexLt_cons_same]
  exact lexLt_day_tail t.day t.hour t.minute t.second hd

/-- Helper for C9: a timestamp strictly earlier in the (year, month)
calendar order is lexicographically before. -/
theorem ltB_true_of_month_before (a b : DateTime)
    (h : a.year < b.year ∨ (a.year = b.year ∧ a.month < b.month)) :
    DateTime.ltB a b = true := by
  simp only [DateTime.ltB, DateTime.toList, DateTime.lexLt]
  rcases h with h | ⟨h1, h2⟩
  · rw [if_pos h]
  · rw [if_neg (by omega), if_pos h1, if_pos h2]

/-- C9 (confirmed): the monthly trade cap is enforced per symbol per
calendar month — with a Goldilock strategy (cap 1) and one recorded open
for the symbol in the same calendar month as `now` (any well-formed day),
`check_monthly_trade_limit` rejects; evaluated in the following calendar
month (`now'`), the same recorded open no longer counts and the gate
passes. -/
theorem monthly_cap_per_symbol_per_month (sym : String) (t now now' : DateTime)
    (hy : t.year = now.year) (hm : t.month = now.month) (hd : 1 ≤ t.day)
    (hy' : now'.year = (if now.month = 12 then now.year + 1 else now.year))
    (hm' : now'.month = (if now.month = 12 then 1 else now.month + 1)) :
    TradeSafetyGates.check_monthly_trade_limit (some 1) [(sym, t)] sym now = false ∧
    TradeSafetyGates.check_monthly_trade_limit (some 1) [(sym, t)] sym now' = true := by
  constructor
  · have h1 : DateTime.ltB t (TradeSafetyGates.month_start now) = false :=
      ltB_to_month_start_false now t hy hm hd
    have h2 : DateTime.ltB t (TradeSafetyGates.next_month_start now) = true := by
      by_cases h12 : now.month = 12
      · have e1 : (TradeSafetyGates.next_month_start now).year = now.year + 1 := by
          simp [TradeSafetyGates.next_month_start, h12]
        exact ltB_true_of_month_before _ _ (Or.inl (by omega))
      · have e1 : (TradeSafetyGates.next_month_start now).year = now.year := by
          simp [TradeSafetyGates.next_month_start, h12]
        have e2 : (TradeSafetyGates.next_month_start now).month = now.month + 1 := by
          simp [TradeSafetyGates.next_month_start, h12]
        exact ltB_true_of_month_before _ _ (Or.inr ⟨by omega, by omega⟩)
    simp [TradeSafetyGates.check_monthly_trade_limit,
      TradeSafetyGates.trades_this_month, List.filter_cons, DateTime.leB, h1, h2]
  · have h3 : DateTime.ltB t (TradeSafetyGates.month_start now') = true := by
      have ey : (TradeSafetyGates.month_start now').year = now'.year := rfl
      have em : (TradeSafetyGates.month_start now').month = now'.month := rfl
      by_cases h12 : now.month = 12
      · have hy2 : now'.year = now.year + 1 := by rw [hy', if_pos h12]
        exact ltB_true_of_month_before _ _ (Or.inl (by omega))
      · have hy2 : now'.year = now.year := by rw [hy', if_neg h12]
        have hm2 : now'.month = now.month + 1 := by rw [hm', if_neg h12]
        exact ltB_true_of_month_before _ _ (Or.inr ⟨by omega, by omega⟩)
    simp [TradeSafetyGates.check_monthly_trade_limit,
      TradeSafetyGates.trades_this_month, List.filter_cons, DateTime.leB, h3]

/-- C9 witness: a DOGEUSDT open recorded 2025-03-05; a second attempt on
2025-03-20 is rejected by the monthly cap, while an attempt on 2025-04-02
passes the gate. -/
theorem monthly_cap_per_symbol_per_month_witness :
    TradeSafetyGates.check_monthly_trade_limit (some 1)
        [("DOGEUSDT", ⟨2025, 3, 5, 10, 0, 0⟩)] "DOGEUSDT"
        ⟨2025, 3, 20, 0, 0, 0⟩ = false ∧
    TradeSafetyGates.check_monthly_trade_limit (some 1)
        [("DOGEUSDT", ⟨2025, 3, 5, 10, 0, 0⟩)] "DOGEUSDT"
        ⟨2025, 4, 2, 0, 0, 0⟩ = true :=
  monthly_cap_per_symbol_per_month "DOGEUSDT" ⟨2025, 3, 5, 10, 0, 0⟩
    ⟨2025, 3, 20, 0, 0, 0⟩ ⟨2025, 4, 2, 0, 0, 0⟩
    rfl rfl (by decide) (by decide) (by decide)

/-- C10 (confirmed): in the pre-trade capacity count, an open position
counts exactly when its live value is at least $1 or its price cannot be
fetched; and degrading the price feed (any symbol's lookup replaced by a
failure) can only increase the count, so a transient price-feed gap can
only make the capacity gate stricter, never admit an extra position. -/
theorem capacity_count_fail_safe :
    (∀ (priceOf : String → Option ℚ) (e : String × RiskManager.Position),
      RiskManager.counts_toward_capacity priceOf e = true ↔
        (priceOf e.1 = none ∨ ∃ v, priceOf e.1 = some v ∧ e.2.quantity * v ≥ 1)) ∧
    (∀ (positions : List (String × RiskManager.Position))
      (p1 p2 : String → Option ℚ),
      (∀ sym, p2 sym = p1 sym ∨ p2 sym = none) →
      RiskManager.meaningful_positions positions p1 ≤
        RiskManager.meaningful_positions positions p2) := by
  constructor
  · intro priceOf e
    cases h : priceOf e.1 <;> simp [RiskManager.counts_toward_capacity, h]
  · intro positions p1 p2 h
    induction positions with
    | nil => exact Nat.le_refl 0
    | cons e t ih =>
        have key : RiskManager.counts_toward_capacity p1 e = true →
            RiskManager.counts_toward_capacity p2 e = true := by
          intro h1
          rcases h e.1 with h' | h'
          · simp only [RiskManager.counts_toward_capacity] at h1 ⊢
            rw [h']
            exact h1
          · simp [RiskManager.counts_toward_capacity, h']
        simp only [RiskManager.meaningful_positions, List.filter_cons] at ih ⊢
        by_cases hc1 : RiskManager.counts_toward_capacity p1 e = true
        · have hc2 := key hc1
          rw [if_pos hc1, if_pos hc2]
          simp only [List.length_cons]
          omega
        · rw [if_neg hc1]
          by_cases hc2 : RiskManager.counts_toward_capacity p2 e = true
          · rw [if_pos hc2]
            simp only [List.length_cons]
            omega
          · rw [if_neg hc2]
            exact ih

/-- C10 witness: a position whose price lookup fails is counted; and with
two open positions, a feed that fails for one of them yields a count at
least as large as the fully-available feed. -/
theorem capacity_count_fail_safe_witness :
    RiskManager.counts_toward_capacity (fun _ => none)
      ("DOGEUSDT",
        { symbol := "DOGEUSDT", entry_price := 100, quantity := 1,
          stop_loss := 97, highest_price := 100, tp1_hit := false }) = true ∧
    RiskManager.meaningful_positions
        [("DOGEUSDT",
          { symbol := "DOGEUSDT", entry_price := 100, quantity := 1,
            stop_loss := 97, highest_price := 100, tp1_hit := false }),
         ("SOLUSDT",
          { symbol := "SOLUSDT", entry_price := 50, quantity := 2,
            stop_loss := 48, highest_price := 50, tp1_hit := false })]
        (fun _ => some 100) ≤
      RiskManager.meaningful_positions
        [("DOGEUSDT",
          { symbol := "DOGEUSDT", entry_price := 100, quantity := 1,
            stop_loss := 97, highest_price := 100, tp1_hit := false }),
         ("SOLUSDT",
          { symbol := "SOLUSDT", entry_price := 50, quantity := 2,
            stop_loss := 48, highest_price := 50, tp1_hit := false })]
        (fun sym => if sym = "SOLUSDT" then none else some 100) :=
  ⟨(capacity_count_fail_safe.1 (fun _ => none)
      ("DOGEUSDT",
        { symbol := "DOGEUSDT", entry_price := 100, quantity := 1,
          stop_loss := 97, highest_price := 100, tp1_hit := false })).mpr
      (Or.inl rfl),
   capacity_count_fail_safe.2 _ (fun _ => some 100)
      (fun sym => if sym = "SOLUSDT" then none else some 100)
      (fun sym => by by_cases hs : sym = "SOLUSDT" <;> simp [hs])⟩

/-- Helper for C1: the first failing gate of a concatenation is the first
failing gate of the prefix, falling through to the suffix when every
prefix gate passes. -/
theorem first_failing_append (xs ys : List (Bool × RejectReason)) :
    first_failing (xs ++ ys) =
      (match first_failing xs with
       | .approved => first_failing ys
       | .rejected reason => .rejected reason) := by
  induction xs with
  | nil => simp [first_failing]
  | cons e t ih =>
      obtain ⟨b, reason⟩ := e
      cases b <;> simp [first_failing, ih]

/-- Helper for C1: `TradeSafetyGates.validate_trade` returns exactly the
first failing gate of its ordered gate list. -/
theorem safety_validate_eq_first_failing (c : TradeSafetyGates.TradeCandidate) :
    TradeSafetyGates.validate_trade c = first_failing (safety_gate_list c) := by
  simp only [TradeSafetyGates.validate_trade, safety_gate_list, first_failing,
    decide_eq_true_eq]

/-- Helper for C1: `RiskManager.validate_trade` returns exactly the first
failing gate of its ordered gate list. -/
theorem risk_validate_eq_first_failing (s : RiskManager.RiskState)
    (priceOf : String → Option ℚ) (now : ℚ) (r : RiskManager.OrderRequest) :
    RiskManager.validate_trade s priceOf now r =
      first_failing (risk_gate_list s priceOf now r) := by
  simp only [RiskManager.validate_trade, risk_gate_list, first_failing,
    decide_eq_true_eq]

/-- C1 (corrected), counterexample to the claim as stated: a candidate
whose monthly cap is already hit, validated while the circuit breaker is
active — by the claim's gate order (global-pause, circuit-breaker,
monthly-cap, ...) the rejection reason would be `CircuitBreakerActive`,
but the pipeline runs the safety gates first and rejects with
`MonthlyLimitReached`. -/
theorem gate_order_counterexample :
    open_pipeline_validate
        { symbol := "DOGEUSDT", strategyCap := some 1,
          tradeRecords := [("DOGEUSDT", ⟨2025, 3, 5, 0, 0, 0⟩)],
          utcNow := ⟨2025, 3, 20, 0, 0, 0⟩, actionIsBuy := true,
          volume24hUsd := 60000000, confidence := 80, rsi := 50,
          activePositions := 0, accountBalance := 1000 }
        { current_balance := 1000, starting_capital := 1000, positions := [],
          closed_positions := [], daily_loss := 0, consecutive_losses := 3,
          circuit_breaker_active := true, circuit_breaker_time := 0 }
        (fun _ => some 1) 10
        { symbol := "DOGEUSDT", quantity := 1, entry_price := 100,
          stop_loss_price := 97 } = .rejected .monthlyLimitReached ∧
    RiskManager.is_circuit_breaker_active
        { current_balance := 1000, starting_capital := 1000, positions := [],
          closed_positions := [], daily_loss := 0, consecutive_losses := 3,
          circuit_breaker_active := true, circuit_breaker_time := 0 } 10 = true ∧
    RejectReason.monthlyLimitReached ≠ RejectReason.circuitBreakerActive := by
  refine ⟨?_, ?_, by decide⟩
  · have hm : TradeSafetyGates.check_monthly_trade_limit (some 1)
        [("DOGEUSDT", ⟨2025, 3, 5, 0, 0, 0⟩)] "DOGEUSDT"
        ⟨2025, 3, 20, 0, 0, 0⟩ = false := by decide
    simp [open_pipeline_validate, TradeSafetyGates.validate_trade, hm]
  · norm_num [RiskManager.is_circuit_breaker_active,
      CIRCUIT_BREAKER_COOLDOWN_HOURS]

/-- C1 (corrected, amended claim): the pre-trade validation pipeline
evaluates its gates in the fixed order monthly-trade-cap, buy-signal,
liquidity, confidence, oscillator-band (low then high), open-position
capacity, minimum-balance (`TradeSafetyGates.validate_trade`), and then —
only if all of those pass — global-pause, circuit-breaker, capacity
re-check, daily-loss limits (absolute then percentage), stop-loss
validity, balance sufficiency, minimum position value
(`RiskManager.validate_trade`), short-circuiting on the first failing
gate, so the rejection reason returned is that of the earliest failing
gate in this order, and the trade is approved if and only if every gate
passes. -/
theorem gate_order_pipeline (c : TradeSafetyGates.TradeCandidate)
    (s : RiskManager.RiskState) (priceOf : String → Option ℚ) (now : ℚ)
    (r : RiskManager.OrderRequest) :
    open_pipeline_validate c s priceOf now r =
      first_failing (ordered_gates c s priceOf now r) := by
  rw [ordered_gates, first_failing_append, ← safety_validate_eq_first_failing,
    ← risk_validate_eq_first_failing]
  cases h : TradeSafetyGates.validate_trade c <;>
    simp [open_pipeline_validate, h]

end Springai
